import Mathlib

/-!
Verification of the planar-linkage pose solver (planar_linkage/solver.py,
planar_linkage/linkage2d.py, linkage_tools.py).

The Python source is shallowly embedded: dictionaries become structures, the
in-place mutation of link poses becomes explicit state passing (functions that
mutate the link list return the updated list), and Python exceptions
(StopIteration from a failed `next(...)` lookup, KeyError from a missing dict
key) become an `Except PyError` result.  Machine floats are modelled as real
numbers.  The scipy `least_squares` call is external library code; it is
modelled by an oracle argument giving the final iterate and the scipy status
code, while the call structure around it (the initial evaluation of the
residual function, the unconditional write-back of the final iterate) follows
the source.
-/

namespace Linkage

noncomputable section

/-- Python exceptions that the embedded code can raise.  `stopIteration` is
what a failed `next(generator)` lookup raises; `keyError` is a missing
dictionary key.  `modelReferenceError` appears in the spec's error taxonomy
(section 7) as the intended typed failure for dangling references; no code
path in the repository defines or raises it, it is included so that statements
about it can be made. -/
inductive PyError where
  | stopIteration
  | keyError
  | modelReferenceError
deriving DecidableEq, Repr

/-- A link pose: `{"position": [x, y], "angle": a}`.  Every pose built by the
repository (Link2D.__init__ default, the JSON documents, the solver
write-back) carries both keys, so they are plain fields; the dict `.get`
defaults the source applies to them never fire. -/
structure Pose where
  position : ℝ × ℝ
  angle : ℝ

/-- A named local-frame point on a link: `{"id": ..., "position": [x, y]}`. -/
structure Point2 where
  id : String
  position : ℝ × ℝ

/-- A named local-frame direction on a link: `{"id": ..., "angle": a}`.  The
assembler reads the angle with `d.get('angle', 0)`, so it is optional. -/
structure Direction where
  id : String
  angle : Option ℝ

/-- A line on a link: `{"id": ..., "point_ids": [a, b]}`. -/
structure Line2 where
  id : String
  point_ids : String × String

/-- A link dictionary, with the fields the solver reads.  Circles and arcs are
plot-only and never read by the solver, so they are omitted. -/
structure Link where
  id : String
  isGrounded : Bool
  pose : Pose
  points : List Point2
  directions : List Direction
  lines : List Line2

/-- The prismatic axis record `{"point_id": ..., "direction_id": ...}`. -/
structure Axis where
  point_id : String
  direction_id : String

/-- A weld joint's `relative_pose` value: `{"position": [x, y], "angle": a}`. -/
structure RelPose where
  position : ℝ × ℝ
  angle : ℝ

/-- A joint dictionary.  `type`, `parent` and `child` are read in every
branch of the assembler and written by every `to_dict`, so they are plain
fields.  The type-specific fields are optional: the assembler reads most of
them by direct indexing (KeyError when absent) but reads `relative_pos` and
`relative_angle` with `.get` defaults `[0, 0]` and `0`.  `relative_pose` is
the field written by `WeldJoint.to_dict`; the assembler never reads it.  The
gear fields ( ratio , phase_offset ) are declared by `GearJoint.to_dict` and
never read by the assembler. -/
structure Joint where
  id : String
  name : String
  type : String
  parent : String
  child : String
  point_id_parent : Option String := none
  point_id_child : Option String := none
  axis_parent : Option Axis := none
  axis_child : Option Axis := none
  line_id_parent : Option String := none
  ratio : Option ℝ := none
  phase_offset : Option ℝ := none
  relative_pos : Option (ℝ × ℝ) := none
  relative_angle : Option ℝ := none
  relative_pose : Option RelPose := none

/-- The subset of the linkage document the solver reads: `data['links']`,
`data['joints']`, `data.get('unit_angle', 'deg')`.  The unit field is
optional because the source reads it with a `.get` default. -/
structure LinkageData where
  links : List Link
  joints : List Joint
  unit_angle : Option String := none

/-- math.radians: degrees to radians. -/
def radians (x : ℝ) : ℝ := x * (Real.pi / 180)

/-- transform_point(local_pos, pose, unit_angle='deg') from solver.py: rotate
the local point by the pose angle (converted from degrees when the unit is
'deg') and translate by the pose position. -/
def transform_point (local_pos : ℝ × ℝ) (pose : Pose) (unit_angle : String := "deg") :
    ℝ × ℝ :=
  let x := local_pos.1
  let y := local_pos.2
  let angle := pose.angle
  let angle := if unit_angle = "deg" then radians angle else angle
  let cos_a := Real.cos angle
  let sin_a := Real.sin angle
  let tx := pose.position.1
  let ty := pose.position.2
  (cos_a * x - sin_a * y + tx, sin_a * x + cos_a * y + ty)

/-- get_link_pose_vector(links) from solver.py: the flat [x, y, angle] vector
of the non-grounded links, in declaration order, together with their 0-based
indices into the full list.  The source produces the indices with an
`enumerate` counter; the recursion here produces the same indices by shifting
the tail's indices by one. -/
def get_link_pose_vector : List Link → List ℝ × List Nat
  | [] => ([], [])
  | l :: rest =>
    let tail := get_link_pose_vector rest
    let shifted := tail.2.map (fun n => n + 1)
    if l.isGrounded then (tail.1, shifted)
    else (l.pose.position.1 :: l.pose.position.2 :: l.pose.angle :: tail.1, 0 :: shifted)

/-- In-place update of the i-th element of a list (Python `links[i] = ...`);
out-of-range indices leave the list unchanged (the callers in the source only
produce indices derived from the same list, so the IndexError case is
unreachable). -/
def modifyNth (f : α → α) : Nat → List α → List α
  | _, [] => []
  | 0, a :: as => f a :: as
  | n + 1, a :: as => a :: modifyNth f n as

/-- Write an [x, y, angle] triple into a link's pose (the body of the loop in
set_link_poses_from_vector). -/
def setPoseTriple (x y a : ℝ) (l : Link) : Link :=
  { l with pose := { position := (x, y), angle := a } }

/-- set_link_poses_from_vector(links, pose_vec, non_grounded_indices) from
solver.py: write consecutive [x, y, angle] triples of the vector into the
links at the given indices.  A vector shorter than 3 times the index count
would raise IndexError in the source; the callers never produce one, and the
embedding returns the links unchanged in that unreachable case. -/
def set_link_poses_from_vector : List Link → List ℝ → List Nat → List Link
  | links, _, [] => links
  | links, vec, i :: is =>
    match vec with
    | x :: y :: a :: rest =>
      set_link_poses_from_vector (modifyNth (setPoseTriple x y a) i links) rest is
    | _ => links

/-- next(l for l in links if l['id'] == link_id): StopIteration when absent. -/
def findLink (links : List Link) (link_id : String) : Except PyError Link :=
  match links.find? (fun l => l.id == link_id) with
  | some l => .ok l
  | none => .error .stopIteration

/-- next(p for p in points if p['id'] == point_id): StopIteration when absent. -/
def findPoint (points : List Point2) (point_id : String) : Except PyError Point2 :=
  match points.find? (fun p => p.id == point_id) with
  | some p => .ok p
  | none => .error .stopIteration

/-- next(d for d in directions if d['id'] == dir_id): StopIteration when absent. -/
def findDirection (dirs : List Direction) (dir_id : String) : Except PyError Direction :=
  match dirs.find? (fun d => d.id == dir_id) with
  | some d => .ok d
  | none => .error .stopIteration

/-- next(ln for ln in lines if ln['id'] == line_id): StopIteration when absent. -/
def findLine (lines : List Line2) (line_id : String) : Except PyError Line2 :=
  match lines.find? (fun ln => ln.id == line_id) with
  | some ln => .ok ln
  | none => .error .stopIteration

/-- Direct dictionary indexing `joint['field']`: KeyError when the key is
absent. -/
def req (o : Option α) : Except PyError α :=
  match o with
  | some a => .ok a
  | none => .error .keyError

/-- The residual group one joint contributes, dispatched on the joint's type
tag exactly as in constraint_equations (solver.py lines 40-135).  Joint types
without a branch (gear among them) fall through the trailing `else: pass` and
contribute nothing. -/
def jointResiduals (unit_angle : String) (links : List Link) (joint : Joint) :
    Except PyError (List ℝ) :=
  if joint.type = "revolute" then do
    let parent_pt_id ← req joint.point_id_parent
    let child_pt_id ← req joint.point_id_child
    let parent_link ← findLink links joint.parent
    let child_link ← findLink links joint.child
    let parent_pt ← findPoint parent_link.points parent_pt_id
    let child_pt ← findPoint child_link.points child_pt_id
    let parent_global := transform_point parent_pt.position parent_link.pose unit_angle
    let child_global := transform_point child_pt.position child_link.pose unit_angle
    .ok [parent_global.1 - child_global.1, parent_global.2 - child_global.2]
  else if joint.type = "prismatic" then do
    let axis_parent ← req joint.axis_parent
    let axis_child ← req joint.axis_child
    let parent_link ← findLink links joint.parent
    let child_link ← findLink links joint.child
    let axis_point_p ← findPoint parent_link.points axis_parent.point_id
    let axis_dir_p ← findDirection parent_link.directions axis_parent.direction_id
    let axis_point_c ← findPoint child_link.points axis_child.point_id
    let axis_dir_c ← findDirection child_link.directions axis_child.direction_id
    let axis_angle_p := axis_dir_p.angle.getD 0
    let axis_angle_c := axis_dir_c.angle.getD 0
    let parent_pose_angle := parent_link.pose.angle
    let child_pose_angle := child_link.pose.angle
    let axis_angle_p := if unit_angle = "deg" then radians axis_angle_p else axis_angle_p
    let axis_angle_c := if unit_angle = "deg" then radians axis_angle_c else axis_angle_c
    let parent_pose_angle :=
      if unit_angle = "deg" then radians parent_pose_angle else parent_pose_angle
    let child_pose_angle :=
      if unit_angle = "deg" then radians child_pose_angle else child_pose_angle
    let world_axis_angle_p := axis_angle_p + parent_pose_angle
    let world_axis_angle_c := axis_angle_c + child_pose_angle
    let dir_vec_p := (Real.cos world_axis_angle_p, Real.sin world_axis_angle_p)
    let dir_vec_c := (Real.cos world_axis_angle_c, Real.sin world_axis_angle_c)
    let axis_origin_p := transform_point axis_point_p.position parent_link.pose unit_angle
    let axis_origin_c := transform_point axis_point_c.position child_link.pose unit_angle
    let v := (axis_origin_c.1 - axis_origin_p.1, axis_origin_c.2 - axis_origin_p.2)
    .ok [dir_vec_p.1 * dir_vec_c.2 - dir_vec_p.2 * dir_vec_c.1,
      v.1 * dir_vec_p.2 - v.2 * dir_vec_p.1]
  else if joint.type = "pin-in-slot" then do
    let line_id ← req joint.line_id_parent
    let point_id ← req joint.point_id_child
    let parent_link ← findLink links joint.parent
    let child_link ← findLink links joint.child
    let line ← findLine parent_link.lines line_id
    let ptA ← findPoint parent_link.points line.point_ids.1
    let ptB ← findPoint parent_link.points line.point_ids.2
    let A := transform_point ptA.position parent_link.pose unit_angle
    let B := transform_point ptB.position parent_link.pose unit_angle
    let pin ← findPoint child_link.points point_id
    let P := transform_point pin.position child_link.pose unit_angle
    let AB := (B.1 - A.1, B.2 - A.2)
    let AP := (P.1 - A.1, P.2 - A.2)
    .ok [AB.1 * AP.2 - AB.2 * AP.1]
  else if joint.type = "weld" then do
    let rel_pos := joint.relative_pos.getD (0, 0)
    let rel_angle := joint.relative_angle.getD 0
    let parent_link ← findLink links joint.parent
    let child_link ← findLink links joint.child
    let parent_pose := parent_link.pose
    let child_pose := child_link.pose
    let weld_world := transform_point rel_pos parent_pose unit_angle
    let child_origin := transform_point (0, 0) child_pose unit_angle
    let parent_angle := parent_pose.angle
    let child_angle := child_pose.angle
    -- solver.py lines 130-133 branch on the unit but append the same
    -- expression in both branches.
    .ok [weld_world.1 - child_origin.1, weld_world.2 - child_origin.2,
      if unit_angle = "deg" then (child_angle - parent_angle) - rel_angle
      else (child_angle - parent_angle) - rel_angle]
  else
    .ok []

/-- The joint loop of constraint_equations: `for joint in joints:
eqs.extend(...)`, with an exception from a lookup aborting the loop. -/
def loopJoints (unit_angle : String) (links : List Link) :
    List Joint → List ℝ → Except PyError (List ℝ)
  | [], eqs => .ok eqs
  | j :: rest, eqs => do
    let r ← jointResiduals unit_angle links j
    loopJoints unit_angle links rest (eqs ++ r)

/-- The driven-constraint residual appended by constraint_equations
(solver.py lines 137-146): `(child_angle - parent_angle) - target_rel_angle`.
The source branches on the unit but appends the same expression in both
branches. -/
def drivenResidual (unit_angle : String) (links : List Link)
    (driven : String × String × ℝ) : Except PyError ℝ := do
  let parent_link ← findLink links driven.2.1
  let child_link ← findLink links driven.1
  let parent_angle := parent_link.pose.angle
  let child_angle := child_link.pose.angle
  .ok (if unit_angle = "deg" then (child_angle - parent_angle) - driven.2.2
    else (child_angle - parent_angle) - driven.2.2)

/-- Python's `[i for i, g in enumerate(grounded_mask) if not g]`
(solver.py line 37). -/
def nonGroundedOfMask (mask : List Bool) : List Nat :=
  (mask.enum.filter (fun p => !p.2)).map (fun p => p.1)

/-- constraint_equations(pose_vec, links, joints, grounded_mask, driven=None)
from solver.py.  The first component of the result is the link list after the
function's own `set_link_poses_from_vector` call (the source mutates the list
it is given); the second is the residual vector, or the exception raised
while assembling it.  `unitState` models the `constraint_equations.unit_angle`
attribute stashed on the function object between calls: line 39 reads it when
set and falls back to 'deg' otherwise. -/
def constraint_equations (pose_vec : List ℝ) (links : List Link) (joints : List Joint)
    (grounded_mask : List Bool) (driven : Option (String × String × ℝ) := none)
    (unitState : Option String := none) :
    List Link × Except PyError (List ℝ) :=
  let links2 := set_link_poses_from_vector links pose_vec (nonGroundedOfMask grounded_mask)
  let unit_angle := unitState.getD "deg"
  (links2, do
    let eqs ← loopJoints unit_angle links2 joints []
    match driven with
    | none => .ok eqs
    | some d => do
      let r ← drivenResidual unit_angle links2 d
      .ok (eqs ++ [r]))

/-- WeldJoint(id, name, parent, child, relative_pose).to_dict() from
linkage2d.py: the emitted dictionary carries the offset only under the key
`relative_pose`; the keys `relative_pos` and `relative_angle` that the
assembler reads are absent. -/
def weldJointToDict (id name parent child : String) (relative_pose : RelPose) : Joint :=
  { id := id, name := name, type := "weld", parent := parent, child := child,
    relative_pose := some relative_pose }

/-- GearJoint(id, name, parent, child, ratio, phase_offset).to_dict() from
linkage2d.py. -/
def gearJointToDict (id name parent child : String) (r p : ℝ) : Joint :=
  { id := id, name := name, type := "gear", parent := parent, child := child,
    ratio := some r, phase_offset := some p }

/-- The outcome of the scipy least_squares call, as solve_linkage consumes
it: the final iterate `x` and the scipy status code (status 0 means the
evaluation budget was exhausted without meeting any tolerance; res.success is
status > 0).  The numerical iteration itself is external library code and is
abstracted as an oracle value handed to the embedded solve_linkage. -/
structure LSResult where
  x : List ℝ
  status : ℤ

/-- Python's `[i not in non_grounded_indices for i in range(len(links))]`
(solver.py line 167). -/
def maskFromIndices (n : Nat) (ngi : List Nat) : List Bool :=
  (List.range n).map (fun i => !(ngi.contains i))

/-- The closure `fun(x)` built inside solve_linkage (solver.py lines
164-167): write x into the non-grounded links, stash the unit on the residual
function, and call constraint_equations (the source calls it the same way
whether or not `driven` is None).  Returns the mutated link list and the
residual outcome. -/
def solveFun (links : List Link) (joints : List Joint) (ngi : List Nat)
    (unit_angle : String) (driven : Option (String × String × ℝ)) (x : List ℝ) :
    List Link × Except PyError (List ℝ) :=
  let links := set_link_poses_from_vector links x ngi
  constraint_equations x links joints (maskFromIndices links.length ngi) driven
    (some unit_angle)

/-- solve_linkage(data, driven=None, initial_pose=None) from solver.py, for
the in-memory-data path (the filename path only adds file I/O around it).
scipy's least_squares evaluates `fun` at x0 first; an exception raised there
propagates out of solve_linkage, leaving the links with whatever the attempt
wrote (first component).  Otherwise the iteration runs (abstracted by the
oracle; every intermediate `fun` call writes only the non-grounded pose
entries, which the final write-back overwrites), and lines 170-178
unconditionally commit res.x into the links and return them with res.x —
no convergence check is performed on the oracle's status. -/
def solve_linkage (oracle : LSResult) (data : LinkageData)
    (driven : Option (String × String × ℝ) := none)
    (initial_pose : Option (List ℝ) := none) :
    List Link × Except PyError (LinkageData × List ℝ) :=
  let links := data.links
  let joints := data.joints
  let unit_angle := data.unit_angle.getD "deg"
  let pv := get_link_pose_vector links
  let pose_vec := match initial_pose with
    | some p => p
    | none => pv.1
  let ngi := pv.2
  let x0 := pose_vec
  let first := solveFun links joints ngi unit_angle driven x0
  match first.2 with
  | .error e => (first.1, .error e)
  | .ok _ =>
    let res := oracle
    let links2 := set_link_poses_from_vector first.1 res.x ngi
    (links2, .ok ({ data with links := links2 }, res.x))

/-- The per-frame solve loop of animate (linkage_tools.py lines 243-250):
each frame deep-copies the original document (pure semantics: the original
`data` is reused), solves it with driven = (child_id, parent_id, angles[i])
and initial_pose = the previous frame's returned vector (None for the first
frame), and stores the returned vector as the next frame's guess.  An
exception from a solve propagates and aborts the sweep.  Each entry of the
result records the guess that frame's solve received and the vector it
returned.  The oracle is per-frame: a function of the frame's target angle
and incoming guess. -/
def animateFrames (oracle : ℝ → Option (List ℝ) → LSResult) (data : LinkageData)
    (child_id parent_id : String) :
    List ℝ → Option (List ℝ) → List (Option (List ℝ) × List ℝ)
  | [], _ => []
  | a :: rest, guess =>
    match (solve_linkage (oracle a guess) data (some (child_id, parent_id, a)) guess).2 with
    | .error _ => []
    | .ok (_, x) =>
      (guess, x) :: animateFrames oracle data child_id parent_id rest (some x)

/-- A frame list is warm-start chained from a starting guess: the first
frame's solve received the starting guess, and every later frame's solve
received the previous frame's returned vector. -/
def chained : Option (List ℝ) → List (Option (List ℝ) × List ℝ) → Prop
  | _, [] => True
  | g, f :: rest => f.1 = g ∧ chained (some f.2) rest

/-- The rotation matrix of the spec's `world = Rotate(angle) * local +
position` contract (section 4.1). -/
def rotMatrix (θ : ℝ) : Matrix (Fin 2) (Fin 2) ℝ :=
  !![Real.cos θ, -Real.sin θ; Real.sin θ, Real.cos θ]

/-- Modelled from the spec's words (section 4.1): apply the rotation matrix
of the pose angle — converted from degrees exactly when the unit is 'deg' —
to the local point and add the pose position. -/
def specTransform (pose : Pose) (unit_angle : String) (v : ℝ × ℝ) : ℝ × ℝ :=
  let θ := if unit_angle = "deg" then radians pose.angle else pose.angle
  let w := (rotMatrix θ).mulVec ![v.1, v.2]
  (w 0 + pose.position.1, w 1 + pose.position.2)

/-! Helper lemmas. -/

theorem pure_eq_ok (a : α) : (pure a : Except ε α) = .ok a := rfl

theorem ok_bind (a : α) (f : α → Except ε β) :
    (Except.ok a : Except ε α) >>= f = f a := rfl

theorem error_bind (e : ε) (f : α → Except ε β) :
    (Except.error e : Except ε α) >>= f = .error e := rfl

theorem modifyNth_succ_cons (f : α → α) (n : Nat) (a : α) (as : List α) :
    modifyNth f (n + 1) (a :: as) = a :: modifyNth f n as := rfl

/-- Writing into positions shifted by one leaves the head untouched. -/
theorem set_link_poses_shift (idxs : List Nat) :
    ∀ (vec : List ℝ) (l : Link) (links : List Link),
      set_link_poses_from_vector (l :: links) vec (idxs.map (fun n => n + 1)) =
        l :: set_link_poses_from_vector links vec idxs := by
  induction idxs with
  | nil => intro vec l links; simp [set_link_poses_from_vector]
  | cons i is ih =>
    intro vec l links
    rcases vec with _ | ⟨x, _ | ⟨y, _ | ⟨a, rest⟩⟩⟩
    · rfl
    · rfl
    · rfl
    · simp only [List.map_cons, set_link_poses_from_vector, modifyNth_succ_cons]
      exact ih rest l (modifyNth (setPoseTriple x y a) i links)

/-- Unpacking the packed pose vector back into the links is the identity:
set_link_poses_from_vector undoes get_link_pose_vector. -/
theorem set_get_link_pose_vector (links : List Link) :
    set_link_poses_from_vector links (get_link_pose_vector links).1
      (get_link_pose_vector links).2 = links := by
  induction links with
  | nil => rfl
  | cons l rest ih =>
    cases hg : l.isGrounded with
    | true =>
      rw [show get_link_pose_vector (l :: rest)
            = ((get_link_pose_vector rest).1,
               (get_link_pose_vector rest).2.map (fun n => n + 1)) by
          simp [get_link_pose_vector, hg]]
      exact (set_link_poses_shift _ _ _ _).trans (congrArg _ ih)
    | false =>
      rw [show get_link_pose_vector (l :: rest)
            = (l.pose.position.1 :: l.pose.position.2 :: l.pose.angle ::
                (get_link_pose_vector rest).1,
               0 :: (get_link_pose_vector rest).2.map (fun n => n + 1)) by
          simp [get_link_pose_vector, hg]]
      show set_link_poses_from_vector (l :: rest) (get_link_pose_vector rest).1
          ((get_link_pose_vector rest).2.map (fun n => n + 1)) = l :: rest
      exact (set_link_poses_shift _ _ _ _).trans (congrArg _ ih)

/-- The joint loop accumulates exactly the concatenation of the per-joint
residual groups, in joint order. -/
theorem loopJoints_eq_mapM (u : String) (links : List Link) (js : List Joint) :
    ∀ eqs : List ℝ,
      loopJoints u links js eqs =
        (js.mapM (jointResiduals u links)).map (fun gs => eqs ++ gs.flatten) := by
  induction js with
  | nil =>
    intro eqs
    rw [List.mapM_nil, pure_eq_ok]
    simp [loopJoints, Except.map]
  | cons j rest ih =>
    intro eqs
    rw [List.mapM_cons]
    simp only [loopJoints]
    cases hj : jointResiduals u links j with
    | error e =>
      rw [error_bind, error_bind]
      rfl
    | ok r =>
      rw [ok_bind, ok_bind, ih (eqs ++ r)]
      cases hrest : rest.mapM (jointResiduals u links) with
      | error e => rfl
      | ok gs => simp [Except.map, List.append_assoc]

/-! Claim theorems. -/

/-- C6: for every local-frame 2D point and every pose, transform_point returns
the world-frame point Rotate(angle) * local + position, with the pose angle
converted from degrees to radians exactly when the angle unit is 'deg' and
used unchanged otherwise. -/
theorem transform_point_matches_rotation_contract (v : ℝ × ℝ) (pose : Pose)
    (unit_angle : String) :
    transform_point v pose unit_angle = specTransform pose unit_angle v := by
  unfold transform_point specTransform rotMatrix
  simp [Matrix.mulVec, Matrix.dotProduct, Fin.sum_univ_two, Prod.ext_iff]
  ring

/-- C10: every place the angle unit can be left unspecified falls back to
degrees: transform_point's unit parameter defaults to 'deg';
constraint_equations with no stashed unit attribute behaves as if it were
'deg'; solve_linkage on a document lacking the unit_angle key produces the
same link poses and the same outcome (up to the document echoing its own
missing key) as the same document declaring 'deg'. -/
theorem unit_angle_defaults_to_deg :
    (∀ (v : ℝ × ℝ) (pose : Pose), transform_point v pose = transform_point v pose "deg")
    ∧ (∀ (pv : List ℝ) (links : List Link) (joints : List Joint) (mask : List Bool)
        (d : Option (String × String × ℝ)),
        constraint_equations pv links joints mask d none =
          constraint_equations pv links joints mask d (some "deg"))
    ∧ (∀ (oracle : LSResult) (links : List Link) (joints : List Joint)
        (d : Option (String × String × ℝ)) (ip : Option (List ℝ)),
        (solve_linkage oracle { links := links, joints := joints, unit_angle := none } d ip).1 =
          (solve_linkage oracle
            { links := links, joints := joints, unit_angle := some "deg" } d ip).1
        ∧ ((solve_linkage oracle
              { links := links, joints := joints, unit_angle := none } d ip).2).map
            (fun r => (r.1.links, r.2)) =
          ((solve_linkage oracle
              { links := links, joints := joints, unit_angle := some "deg" } d ip).2).map
            (fun r => (r.1.links, r.2))) := by
  refine ⟨fun v pose => rfl, fun pv links joints mask d => rfl,
    fun oracle links joints d ip => ?_⟩
  cases ip with
  | none =>
    simp only [solve_linkage, Option.getD_none, Option.getD_some]
    cases (solveFun links joints (get_link_pose_vector links).2 "deg" d
        (get_link_pose_vector links).1).2 <;> simp [Except.map]
  | some p =>
    simp only [solve_linkage, Option.getD_none, Option.getD_some]
    cases (solveFun links joints (get_link_pose_vector links).2 "deg" d p).2 <;>
      simp [Except.map]

/-- C3: for a weld joint, if the child link's pose equals the parent link's
pose composed with the joint's declared relative pose — relative position
transformed by the parent's pose, angles summed — then the three weld
residuals produced by the constraint assembler are exactly zero, an algebraic
identity independent of the solver.  The declared offset is the one the
assembler reads, the relative_pos / relative_angle fields (see C4 for the
construction-path mismatch). -/
theorem weld_residuals_zero_of_composed_pose
    (unit_angle : String) (links : List Link) (j : Joint) (parent child : Link)
    (p : ℝ × ℝ) (a : ℝ)
    (htype : j.type = "weld")
    (hpos : j.relative_pos = some p)
    (hang : j.relative_angle = some a)
    (hparent : findLink links j.parent = .ok parent)
    (hchild : findLink links j.child = .ok child)
    (hcompose_pos : child.pose.position = transform_point p parent.pose unit_angle)
    (hcompose_ang : child.pose.angle = parent.pose.angle + a) :
    jointResiduals unit_angle links j = .ok [0, 0, 0] := by
  have hx := congrArg Prod.fst hcompose_pos
  have hy := congrArg Prod.snd hcompose_pos
  simp only [transform_point] at hx hy
  simp [jointResiduals, htype, hpos, hang, hparent, hchild, ok_bind,
    transform_point, hcompose_ang, hx, hy]

def C3parent : Link :=
  { id := "L1", isGrounded := true, pose := { position := (1, 2), angle := 30 },
    points := [], directions := [], lines := [] }

def C3childPose : Pose :=
  { position := transform_point (3, 4) C3parent.pose "deg",
    angle := C3parent.pose.angle + 5 }

def C3child : Link :=
  { id := "L2", isGrounded := false, pose := C3childPose,
    points := [], directions := [], lines := [] }

def C3weld : Joint :=
  { id := "W1", name := "weld1", type := "weld", parent := "L1", child := "L2",
    relative_pos := some (3, 4), relative_angle := some 5 }

/-- Witness for C3: a concrete two-link mechanism whose child pose is the
parent pose composed with the declared weld offset has weld residuals
exactly [0, 0, 0]. -/
theorem weld_residuals_zero_of_composed_pose_witness :
    jointResiduals "deg" [C3parent, C3child] C3weld = .ok [0, 0, 0] :=
  weld_residuals_zero_of_composed_pose "deg" [C3parent, C3child] C3weld
    C3parent C3child (3, 4) 5 rfl rfl rfl
    (by simp [findLink, C3parent, C3child, C3weld])
    (by simp [findLink, C3parent, C3child, C3weld])
    rfl rfl

/-- C4: a weld joint built by the model construction path (WeldJoint /
Linkage2D.from_json) carries its offset only in the relative_pose field,
which the residual assembler never reads: the assembler's output is identical
for any two declared relative poses, and equals what it produces for a joint
carrying the default offset (position (0, 0), angle 0) explicitly. -/
theorem weld_construction_path_offset_defaults
    (unit_angle : String) (links : List Link) (id name parent child : String)
    (rp rq : RelPose) :
    jointResiduals unit_angle links (weldJointToDict id name parent child rp) =
      jointResiduals unit_angle links (weldJointToDict id name parent child rq)
    ∧ jointResiduals unit_angle links (weldJointToDict id name parent child rp) =
      jointResiduals unit_angle links
        { weldJointToDict id name parent child rp with
          relative_pos := some (0, 0), relative_angle := some 0 } :=
  ⟨rfl, rfl⟩

def C2links : List Link :=
  [ { id := "G1", isGrounded := true, pose := { position := (0, 0), angle := 0 },
      points := [], directions := [], lines := [] },
    { id := "G2", isGrounded := true, pose := { position := (0, 0), angle := 0 },
      points := [], directions := [], lines := [] } ]

def C2gear : Joint := gearJointToDict "GJ1" "gear1" "G1" "G2" 2 0

/-- Counterexample to C2: a mechanism containing one gear joint (ratio 2,
phase offset 0) assembles to an empty residual vector — the gear joint
contributes zero scalar residuals, not the one scalar residual the claim
requires, and no residual relates the link angles by the ratio. -/
theorem gear_mechanism_residual_vector_empty :
    (constraint_equations [] C2links [C2gear] [true, true] none none).2 =
      .ok ([] : List ℝ) := rfl

/-- C2 amended: gear joints contribute no residuals: the assembler's type
dispatch has no gear branch, so a gear joint falls through the trailing
`pass` and appends an empty residual group; its declared ratio and phase
offset are never read. -/
theorem gear_joint_contributes_no_residuals
    (unit_angle : String) (links : List Link) (j : Joint) (hj : j.type = "gear") :
    jointResiduals unit_angle links j = .ok [] := by
  simp [jointResiduals, hj]

/-- Witness for the amended C2, at the concrete one-gear mechanism. -/
theorem gear_joint_contributes_no_residuals_witness :
    C2gear.type = "gear" ∧ jointResiduals "deg" C2links C2gear = .ok [] :=
  ⟨rfl, gear_joint_contributes_no_residuals "deg" C2links C2gear rfl⟩

/-- C8: the assembled residual vector is the concatenation of the per-joint
residual groups in joint declaration order (the assembler is a function of
its inputs, so the order is the same on every call for a given mechanism),
and when a driving constraint is supplied its residual is appended as the
final element after all joint groups. -/
theorem constraint_equations_residual_order
    (pv : List ℝ) (links : List Link) (joints : List Joint) (mask : List Bool)
    (us : Option String) (d : String × String × ℝ) :
    (constraint_equations pv links joints mask none us).2 =
      (joints.mapM (jointResiduals (us.getD "deg")
        (set_link_poses_from_vector links pv (nonGroundedOfMask mask)))).map
          List.flatten
    ∧ (constraint_equations pv links joints mask (some d) us).2 =
      ((joints.mapM (jointResiduals (us.getD "deg")
        (set_link_poses_from_vector links pv (nonGroundedOfMask mask)))).map
          List.flatten) >>= fun base =>
        (drivenResidual (us.getD "deg")
          (set_link_poses_from_vector links pv (nonGroundedOfMask mask)) d).map
          (fun r => base ++ [r]) := by
  constructor
  · simp only [constraint_equations, loopJoints_eq_mapM]
    cases joints.mapM (jointResiduals (us.getD "deg")
        (set_link_poses_from_vector links pv (nonGroundedOfMask mask))) <;>
      simp [Except.map, ok_bind, error_bind]
  · simp only [constraint_equations, loopJoints_eq_mapM]
    cases joints.mapM (jointResiduals (us.getD "deg")
        (set_link_poses_from_vector links pv (nonGroundedOfMask mask))) with
    | error e => rfl
    | ok gs =>
      cases drivenResidual (us.getD "deg")
          (set_link_poses_from_vector links pv (nonGroundedOfMask mask)) d <;>
        simp [Except.map, ok_bind, error_bind]

def C5link : Link :=
  { id := "A1", isGrounded := false, pose := { position := (0, 0), angle := 0 },
    points := [], directions := [], lines := [] }

/-- Counterexample to C5: constraint_equations is not side-effect free on the
links it is given: called with a candidate pose vector that differs from the
declared pose, it hands back a link list whose pose has been overwritten (the
source mutates the list in place in its first line, solver.py line 37). -/
theorem constraint_equations_mutates_links :
    (constraint_equations [0, 0, 1] [C5link] [] [false] none none).1 ≠ [C5link] := by
  intro h
  simp [constraint_equations, nonGroundedOfMask, set_link_poses_from_vector,
    modifyNth, setPoseTriple, C5link, List.enum, List.enumFrom,
    Link.mk.injEq, Pose.mk.injEq, Prod.mk.injEq] at h

/-- C5 amended: constraint_equations mutates the links it is given — its
first action overwrites the non-grounded links' poses with the candidate
pose vector — and reads the angle unit from state stashed on the function
(modelled by the unitState input, defaulting to 'deg') rather than from an
explicit argument.  Beyond that write-back it is a function of its inputs:
the returned links are exactly the write-back, and two input link lists with
the same write-back give identical results. -/
theorem constraint_equations_pure_up_to_writeback
    (pv : List ℝ) (links links2 : List Link) (joints : List Joint) (mask : List Bool)
    (d : Option (String × String × ℝ)) (us : Option String)
    (h : set_link_poses_from_vector links pv (nonGroundedOfMask mask) =
      set_link_poses_from_vector links2 pv (nonGroundedOfMask mask)) :
    (constraint_equations pv links joints mask d us).1 =
      set_link_poses_from_vector links pv (nonGroundedOfMask mask)
    ∧ constraint_equations pv links joints mask d us =
      constraint_equations pv links2 joints mask d us := by
  constructor
  · rfl
  · simp only [constraint_equations, h]

/-- Witness for the amended C5, instantiated at a concrete one-link
mechanism. -/
theorem constraint_equations_pure_up_to_writeback_witness :
    (constraint_equations [0, 0, 1] [C5link] [] [false] none none).1 =
      set_link_poses_from_vector [C5link] [0, 0, 1] (nonGroundedOfMask [false])
    ∧ constraint_equations [0, 0, 1] [C5link] [] [false] none none =
      constraint_equations [0, 0, 1] [C5link] [] [false] none none :=
  constraint_equations_pure_up_to_writeback [0, 0, 1] [C5link] [C5link] [] [false]
    none none rfl

def C1link : Link :=
  { id := "B1", isGrounded := false, pose := { position := (0, 0), angle := 0 },
    points := [], directions := [], lines := [] }

def C1data : LinkageData :=
  { links := [C1link], joints := [], unit_angle := some "deg" }

def C1oracle : LSResult := { x := [5, 5, 5], status := 0 }

def C1committed : Link :=
  { id := "B1", isGrounded := false, pose := { position := (5, 5), angle := 5 },
    points := [], directions := [], lines := [] }

/-- Counterexample to C1: with an optimizer outcome whose scipy status is 0
(evaluation budget exhausted, no tolerance met), solve_linkage still returns
a successful result and commits the non-converged iterate into the links: no
solve failure is reported to the caller and the committed poses differ from
the declared ones. -/
theorem solve_linkage_commits_unconverged_result :
    C1oracle.status = 0
    ∧ solve_linkage C1oracle C1data none none =
      ([C1committed], .ok ({ C1data with links := [C1committed] }, [5, 5, 5]))
    ∧ [C1committed] ≠ C1data.links := by
  refine ⟨rfl, rfl, ?_⟩
  intro h
  simp [C1committed, C1data, C1link, Link.mk.injEq, Pose.mk.injEq, Prod.mk.injEq] at h

/-- C1 amended: solve_linkage ignores the optimizer's convergence status
entirely: its result — the committed links included — depends only on the
final iterate x, never on the status, so a budget-exhausted solve is neither
reported as a failure nor kept out of the links (the object-oriented
Linkage2D.solve_linkage likewise commits the poses unconditionally before
returning the optimizer's result object). -/
theorem solve_linkage_ignores_convergence_status
    (o1 o2 : LSResult) (data : LinkageData) (d : Option (String × String × ℝ))
    (ip : Option (List ℝ)) (h : o1.x = o2.x) :
    solve_linkage o1 data d ip = solve_linkage o2 data d ip := by
  simp only [solve_linkage, h]

def C1oracleConverged : LSResult := { x := [5, 5, 5], status := 1 }

/-- Witness for the amended C1: a status-0 (failed) and a status-1
(converged) optimizer outcome with the same final iterate produce identical
solve_linkage results. -/
theorem solve_linkage_ignores_convergence_status_witness :
    solve_linkage C1oracle C1data none none =
      solve_linkage C1oracleConverged C1data none none :=
  solve_linkage_ignores_convergence_status C1oracle C1oracleConverged C1data
    none none rfl

def C7ground : Link :=
  { id := "GND", isGrounded := true, pose := { position := (0, 0), angle := 0 },
    points := [{ id := "P1", position := (0, 0) }], directions := [], lines := [] }

def C7arm : Link :=
  { id := "ARM", isGrounded := false, pose := { position := (0, 0), angle := 0 },
    points := [{ id := "P2", position := (-50, 0) }], directions := [], lines := [] }

def C7joint : Joint :=
  { id := "R1", name := "rev1", type := "revolute", parent := "GND", child := "ARM",
    point_id_parent := some "P9", point_id_child := some "P2" }

def C7data : LinkageData :=
  { links := [C7ground, C7arm], joints := [C7joint], unit_angle := some "deg" }

def C7oracle : LSResult := { x := [], status := 1 }

/-- Counterexample to C7: solving a mechanism whose revolute joint references
the point id P9 absent from link GND fails with StopIteration — the untyped
lookup failure of the `next(...)` search, not the typed ModelReferenceError
the claim names (no code path in the repository produces that error).  The
link poses are handed back unaltered. -/
theorem dangling_point_reference_raises_untyped_error :
    solve_linkage C7oracle C7data none none = (C7data.links, .error .stopIteration)
    ∧ PyError.stopIteration ≠ PyError.modelReferenceError :=
  ⟨rfl, by decide⟩

/-- C7 amended: a joint referencing a point id absent from the named link
makes the constraint assembler raise StopIteration (the untyped failure of
the `next` lookup; the spec's ModelReferenceError is never raised by any
code path), and a solve attempt whose residual evaluation fails surfaces
that exception without committing any pose. -/
theorem dangling_point_reference_behavior :
    (∀ (unit_angle : String) (links : List Link) (j : Joint) (parent child : Link)
      (pid cid : String),
      j.type = "revolute" →
      j.point_id_parent = some pid →
      j.point_id_child = some cid →
      findLink links j.parent = .ok parent →
      findLink links j.child = .ok child →
      findPoint parent.points pid = .error .stopIteration →
      jointResiduals unit_angle links j = .error .stopIteration)
    ∧ (∀ (oracle : LSResult) (data : LinkageData) (e : PyError),
      solveFun data.links data.joints (get_link_pose_vector data.links).2
          (data.unit_angle.getD "deg") none (get_link_pose_vector data.links).1 =
        (data.links, .error e) →
      solve_linkage oracle data none none = (data.links, .error e)) := by
  constructor
  · intro unit_angle links j parent child pid cid htype hpp hpc hfp hfc hmiss
    simp [jointResiduals, htype, hpp, hpc, hfp, hfc, hmiss, req, ok_bind, error_bind]
  · intro oracle data e h
    simp only [solve_linkage, h]

/-- Witness for the amended C7, at the concrete dangling-reference
mechanism. -/
theorem dangling_point_reference_behavior_witness :
    jointResiduals "deg" [C7ground, C7arm] C7joint = .error .stopIteration
    ∧ solve_linkage C7oracle C7data none none = (C7data.links, .error .stopIteration) :=
  ⟨dangling_point_reference_behavior.1 "deg" [C7ground, C7arm] C7joint C7ground C7arm
      "P9" "P2" rfl rfl rfl (by rfl) (by rfl) (by rfl),
    dangling_point_reference_behavior.2 C7oracle C7data .stopIteration (by rfl)⟩

/-- C9: the animation driver invokes the pose solver once per target in
order, and the recorded frames are warm-start chained: the first solve of
the sweep receives the starting guess (None in the source, so the model's
as-declared poses seed it — solve_linkage with no initial guess behaves
exactly as when handed the pose vector extracted from the declared links),
and every later solve receives the previous target's returned flat pose
vector as its initial guess. -/
theorem animate_frames_warm_start_chained
    (oracle : ℝ → Option (List ℝ) → LSResult) (data : LinkageData)
    (child_id parent_id : String) (targets : List ℝ) (guess0 : Option (List ℝ)) :
    chained guess0 (animateFrames oracle data child_id parent_id targets guess0)
    ∧ (∀ (o : LSResult) (d2 : LinkageData) (dr : Option (String × String × ℝ)),
      solve_linkage o d2 dr none =
        solve_linkage o d2 dr (some (get_link_pose_vector d2.links).1)) := by
  constructor
  · induction targets generalizing guess0 with
    | nil => exact trivial
    | cons a rest ih =>
      simp only [animateFrames]
      cases (solve_linkage (oracle a guess0) data
          (some (child_id, parent_id, a)) guess0).2 with
      | error e => exact trivial
      | ok pr => exact ⟨rfl, ih (some pr.2)⟩
  · intro o d2 dr
    rfl

end

end Linkage
